import Mathlib

/-!
Shallow embedding of the KingMaker processing framework
(`processor/framework.py`, `processor/tasks/CROWNFriends.py`,
`processor/tasks/CROWNBuild.py`) and proofs about its specification.

String manipulation from the Python source is modelled with structural
functions over `List Char` (the character sequence of a Python `str`), so
that every definition evaluates inside the kernel.
-/

namespace KingMaker

/-! ### Python string primitives -/

/-- Models Python `line.split("=", 1)` restricted to its success case:
split at the first `'='`, returning the key (characters before it) and the
value (everything after it, later `'='` included); `none` when the line has
no `'='` (in the source the two-element unpacking then raises `ValueError`,
which the loop catches and skips). -/
def splitFirstEq : List Char → Option (List Char × List Char)
  | [] => none
  | c :: cs =>
    if c = '=' then some ([], cs)
    else
      match splitFirstEq cs with
      | some (k, v) => some (c :: k, v)
      | none => none

/-- Models Python `s.split(sep)` for a one-character separator. -/
def splitOnChar (sep : Char) : List Char → List (List Char)
  | [] => [[]]
  | c :: cs =>
    let r := splitOnChar sep cs
    if c = sep then [] :: r
    else
      match r with
      | h :: t => (c :: h) :: t
      | [] => [[c]]

/-- Python whitespace as stripped by `str.strip()`. -/
def isPySpace (c : Char) : Bool :=
  c = ' ' || c = '\t' || c = '\n' || c = '\r' || c = '\x0b' || c = '\x0c'

/-- Models Python `s.strip()`: drop leading and trailing whitespace. -/
def pyStrip (s : String) : String :=
  ⟨((s.data.dropWhile isPySpace).reverse.dropWhile isPySpace).reverse⟩

/-- Models Python `float(s)` for the nonnegative-integer digit strings used
as the `htcondor_request_gpus` parameter (default `"0"`): the numeric value
of the digit sequence. -/
def pyFloat (s : String) : ℕ :=
  s.data.foldl (fun a c => a * 10 + (c.toNat - 48)) 0

/-! ### Environment Resolver — `Task.convert_env_to_dict`
(`framework.py` lines 75-84) -/

/-- One iteration of the loop body of `Task.convert_env_to_dict`: the line
is skipped when it contains a space anywhere (`line.find(" ") < 0` fails);
otherwise `line.split("=", 1)` is unpacked into key and value, and the
`ValueError` raised when there is no `'='` skips the line. -/
def parseEnvLine (line : String) : Option (String × String) :=
  if line.data.contains ' ' then none
  else
    match splitFirstEq line.data with
    | some (k, v) => some (⟨k⟩, ⟨v⟩)
    | none => none

/-- Python dict assignment `my_env[key] = value`: overwrite in place when
the key exists, append otherwise (insertion order preserved). -/
def dictInsert (m : List (String × String)) (k v : String) :
    List (String × String) :=
  if m.any (fun p => p.1 == k) then
    m.map (fun p => if p.1 == k then (k, v) else p)
  else m ++ [(k, v)]

/-- `Task.convert_env_to_dict`: fold the per-line parser over the lines of
the environment dump (the argument is the line list produced by
`env.splitlines()` in the source). -/
def convert_env_to_dict (lines : List String) : List (String × String) :=
  lines.foldl
    (fun m line =>
      match parseEnvLine line with
      | some (k, v) => dictInsert m k v
      | none => m)
    []

/-! ### Command Runner — `Task.run_command` and `Task.run_command_readable`
(`framework.py` lines 117-207) -/

/-- Messages written to the shared console by `Task.run_command`. -/
inductive LogEvent where
  | running (command : List String) (runLocation : Option String)
  | rule
  | output (out : String)
  | errorOut (err : String)
  | errorRunning (command : List String)
  | nonZeroExit (code : Int)
  | success
deriving DecidableEq, Repr

/-- Exceptions raised by the command runner. -/
inductive CmdError where
  | noCommandProvided
  | commandFailed (command : List String)
deriving DecidableEq, Repr

/-- Result of the spawned child process: exit status and captured
stdout/stderr buffers. -/
structure CmdResult where
  code : Int
  out : String
  err : String
deriving DecidableEq, Repr

/-- `Task.run_command` (buffered mode), as a function of the parameters and
the child-process result.  Returns the console log and either the raised
exception or the returned value (`some out` when `collect_out` is set,
`none` for Python's implicit `None`).  The environment-resolution step for
`sourcescripts` only computes the `env` handed to the child and is elided. -/
def run_command (command : List String) (runLocation : Option String)
    (collectOut silent : Bool) (res : CmdResult) :
    List LogEvent × Except CmdError (Option String) :=
  if command.isEmpty then ([], .error .noCommandProvided)
  else
    let pre : List LogEvent :=
      if silent then [] else [.running command runLocation, .rule]
    let outLog : List LogEvent :=
      if silent then [] else [.output res.out, .rule]
    let errLog : List LogEvent :=
      if ¬silent ∨ res.code ≠ 0 then [.errorOut res.err, .rule] else []
    if res.code ≠ 0 then
      (pre ++ outLog ++ errLog ++ [.errorRunning command, .nonZeroExit res.code],
       .error (.commandFailed command))
    else
      (pre ++ outLog ++ errLog ++ (if silent then [] else [.success]),
       .ok (if collectOut then some res.out else none))

/-- `Task.run_command_readable` (streaming mode), as a function of the
command, the sequence of `readline` results in arrival order across the
multiplexed stdout/stderr descriptors, and the child's exit status.
Each read different from a bare newline is logged stripped; the loop ends
when `p.poll()` is not `None`, and the function then falls through: the
exit status is never inspected after termination.  Returns the emitted log
lines, or the exception raised for an empty command. -/
def run_command_readable (command : List String) (reads : List String)
    (exitCode : Int) : Except CmdError (List String) :=
  if command.isEmpty then .error .noCommandProvided
  else .ok ((reads.filter (fun r => r != "\n")).map pyStrip)

/-! ### Branch Mapper — `CROWNFriends.create_branch_map`
(`CROWNFriends.py` lines 117-143) -/

/-- Per-branch metadata attached by `create_branch_map`. -/
structure BranchData where
  scope : String
  nick : String
  era : String
  sampletype : String
  inputfile : String
  filecounter : ℕ
deriving DecidableEq, Repr

/-- Models `inputfile.path.split("/")[-2]`: the second-to-last segment of
the slash-separated path (paths reaching this point in the source always
hold at least two segments). -/
def extractScope (path : String) : String :=
  let parts := splitOnChar '/' path.data
  ⟨parts.getD (parts.length - 2) []⟩

/-- The loop of `create_branch_map`: walk the input files in upstream
order, skip files without the `.root` suffix, keep files whose extracted
scope is among the selected scopes, and assign the next sequential branch
index `counter` with `filecounter = int(counter / len(scopes))`. -/
def branchMapAux (wlcgPath nick era sampletype : String)
    (scopes : List String) : List String → ℕ → List (ℕ × BranchData)
  | [], _ => []
  | path :: rest, counter =>
    if ¬(".root".data.isSuffixOf path.data) then
      branchMapAux wlcgPath nick era sampletype scopes rest counter
    else
      if scopes.contains (extractScope path) then
        (counter,
          { scope := extractScope path, nick := nick, era := era,
            sampletype := sampletype,
            inputfile := wlcgPath ++ path,
            filecounter := counter / scopes.length }) ::
          branchMapAux wlcgPath nick era sampletype scopes rest (counter + 1)
      else branchMapAux wlcgPath nick era sampletype scopes rest counter

/-- `CROWNFriends.create_branch_map`: the branch map built from the
flattened upstream target list (`wlcgPath` is the already-expanded
`os.path.expandvars(self.wlcg_path)` prefix). -/
def create_branch_map (wlcgPath nick era sampletype : String)
    (scopes : List String) (paths : List String) : List (ℕ × BranchData) :=
  branchMapAux wlcgPath nick era sampletype scopes paths 0

/-! ### Job Configuration Assembler — `HTCondorWorkflow.htcondor_job_config`
(`framework.py` lines 297-323) -/

/-- The `HTCondorWorkflow` parameters feeding `config.custom_content`. -/
structure HTCondorParams where
  htcondor_accounting_group : String
  htcondor_requirements : String
  htcondor_remote_job : String
  htcondor_universe : String
  htcondor_docker_image : String
  htcondor_walltime : String
  htcondor_user_proxy : String
  htcondor_request_cpus : String
  htcondor_request_gpus : String
  htcondor_request_memory : String
  htcondor_request_disk : String
deriving DecidableEq, Repr

/-- The `config.custom_content` list assembled by
`HTCondorWorkflow.htcondor_job_config` (lines 302-323): the fixed pairs in
source order, `Requirements` only when the parameter is non-empty (Python
truthiness), and `request_gpus` only when `float(htcondor_request_gpus)`
is strictly positive. -/
def htcondor_custom_content (p : HTCondorParams) : List (String × String) :=
  [("accounting_group", p.htcondor_accounting_group)]
  ++ (if p.htcondor_requirements ≠ "" then
        [("Requirements", p.htcondor_requirements)] else [])
  ++ [("+RemoteJob", p.htcondor_remote_job),
      ("universe", p.htcondor_universe),
      ("docker_image", p.htcondor_docker_image),
      ("+RequestWalltime", p.htcondor_walltime),
      ("x509userproxy", p.htcondor_user_proxy),
      ("request_cpus", p.htcondor_request_cpus)]
  ++ (if 0 < pyFloat p.htcondor_request_gpus then
        [("request_gpus", p.htcondor_request_gpus)] else [])
  ++ [("RequestMemory", p.htcondor_request_memory),
      ("RequestDisk", p.htcondor_request_disk)]

/-! ### Output Supervisor — `PuppetMaster` (`framework.py` lines 427-471) -/

/-- Exception raised by `PuppetMaster.output` when the mismatching
checkfile survives `target.remove()`. -/
inductive SupervisorError where
  | deletionFailed
deriving DecidableEq, Repr

/-- `PuppetMaster.output`, as a function of the stored manifest (`none`
when no checkfile exists, otherwise the path list loaded from it), the
wrapped task's currently declared flattened output paths, and whether
`target.remove()` actually removes the file.  Returns the manifest left on
disk together with the reported mismatch — the stored-only path set
followed by the current-only path set, as logged by
`list(stored - current) + list(current - stored)` — or the exception
raised when deletion fails. -/
def puppet_output (manifest : Option (List String))
    (currentPaths : List String) (removeWorks : Bool) :
    Except SupervisorError
      (Option (List String) × Option (Finset String × Finset String)) :=
  match manifest with
  | none => .ok (none, none)
  | some stored =>
    if currentPaths.toFinset ≠ stored.toFinset then
      if removeWorks then
        .ok (none, some (stored.toFinset \ currentPaths.toFinset,
                         currentPaths.toFinset \ stored.toFinset))
      else .error .deletionFailed
    else .ok (some stored, none)

/-- The manifest written by `PuppetMaster.run` after the wrapped task
completes: `self.output().dump(target_paths)` stores the flattened list of
the wrapped task's output paths. -/
def puppet_run_manifest (currentPaths : List String) : Option (List String) :=
  some currentPaths

/-! ### Artifact Cache — `CROWNBuild.run` (`CROWNBuild.py` lines 12-110) -/

/-- `convert_to_comma_seperated` from `CROWNBuild.py` (list case; a plain
string is returned unchanged by the source). -/
def convert_to_comma_seperated (l : List String) : String :=
  match l with
  | [x] => x
  | xs => String.intercalate "," xs

/-- The externally visible steps of `CROWNBuild.run`, in order.  The upload
destination is the task's single remote output target; `uploadTarball`
records the local source path and the retry budget. -/
inductive BuildAction where
  | logExistingTarball (installDir : String)
  | uploadTarball (src : String) (retries : ℕ)
  | setupBuildEnvironment (buildDir installDir : String)
  | checkCmake
  | runCompileCommand (command : List String)
deriving DecidableEq, Repr

/-- The parameters of `CROWNBuild` used by `run`. -/
structure BuildParams where
  analysis : String
  config : String
  all_sampletypes : List String
  all_eras : List String
  shifts : List String
  scopes : List String
  threads : String
  production_tag : String
  install_dir : String
  build_dir : String
  crown_path : String
  compile_script : String
deriving DecidableEq, Repr

/-- `CROWNBuild.output().basename`: `crown_<analysis>_<config>.tar.gz`. -/
def crown_tarball_name (p : BuildParams) : String :=
  "crown_" ++ p.analysis ++ "_" ++ p.config ++ ".tar.gz"

/-- `CROWNBuild.run`, as the sequence of actions performed, parameterised
by whether `os.path.exists(os.path.join(_install_dir, output.basename))`
holds (`localTarballExists`).  Path joins are modelled as `/`-separated
concatenation and `os.path.abspath` as the identity on the already-absolute
directories involved. -/
def crownbuild_run (p : BuildParams) (localTarballExists : Bool) :
    List BuildAction :=
  let tag := p.production_tag ++ "/CROWN_" ++ p.analysis ++ "_" ++ p.config
  let installDir := p.install_dir ++ "/" ++ tag
  let buildDir := p.build_dir ++ "/" ++ tag
  let basename := crown_tarball_name p
  if localTarballExists then
    [.logExistingTarball installDir,
     .uploadTarball (installDir ++ "/" ++ basename) 10]
  else
    [.setupBuildEnvironment buildDir installDir,
     .checkCmake,
     .runCompileCommand
       ["bash", p.compile_script, p.crown_path, p.analysis, p.config,
        convert_to_comma_seperated p.all_sampletypes,
        convert_to_comma_seperated p.all_eras,
        convert_to_comma_seperated p.scopes,
        convert_to_comma_seperated p.shifts,
        installDir, buildDir, basename, p.threads],
     .uploadTarball (installDir ++ "/" ++ basename) 10]

/-- Discriminator for build-toolchain invocations among the actions of
`crownbuild_run`. -/
def isCompileCall : BuildAction → Bool
  | .runCompileCommand _ => true
  | _ => false

/-! ### Helper instances and lemmas -/

instance {ε α : Type} [DecidableEq ε] [DecidableEq α] :
    DecidableEq (Except ε α) := fun a b =>
  match a, b with
  | .ok x, .ok y => if h : x = y then .isTrue (by rw [h]) else .isFalse (by simp [h])
  | .error x, .error y => if h : x = y then .isTrue (by rw [h]) else .isFalse (by simp [h])
  | .ok _, .error _ => .isFalse (by simp)
  | .error _, .ok _ => .isFalse (by simp)

/-- `splitFirstEq` fails exactly on character sequences without `'='`. -/
theorem splitFirstEq_eq_none_iff (cs : List Char) :
    splitFirstEq cs = none ↔ '=' ∉ cs := by
  induction cs with
  | nil => simp [splitFirstEq]
  | cons c cs ih =>
    by_cases hc : c = '='
    · subst hc; simp [splitFirstEq]
    · cases h : splitFirstEq cs with
      | none =>
        have hns : '=' ∉ cs := ih.mp h
        refine iff_of_true ?_ ?_
        · simp [splitFirstEq, if_neg hc, h]
        · simp only [List.mem_cons]
          rintro (he | hm)
          · exact hc he.symm
          · exact hns hm
      | some kv =>
        have hmem : '=' ∈ cs := by
          by_contra hnot
          rw [← ih] at hnot
          rw [h] at hnot
          exact Option.some_ne_none kv hnot
        simp [splitFirstEq, if_neg hc, h, List.mem_cons, hmem]

/-- Every branch produced by the mapping loop carries
`filecounter = branch_index / number_of_scopes`, whatever the starting
counter. -/
theorem branchMapAux_filecounter (w n e s : String) (sc : List String) :
    ∀ (paths : List String) (counter : ℕ) (p : ℕ × BranchData),
      p ∈ branchMapAux w n e s sc paths counter →
      p.2.filecounter = p.1 / sc.length := by
  intro paths
  induction paths with
  | nil => intro counter p hp; simp [branchMapAux] at hp
  | cons path rest ih =>
    intro counter p hp
    unfold branchMapAux at hp
    split at hp
    · exact ih counter p hp
    · split at hp
      · rcases List.mem_cons.mp hp with h | h
        · subst h; rfl
        · exact ih (counter + 1) p h
      · exact ih counter p hp

/-! ### Claims -/

/-- Claim C1 counterexample: with command `["exit 1"]` and exit status `1`,
`run_command_readable` returns normally (an `ok` result carrying the
streamed lines) instead of raising `CommandFailed` — the source never
inspects the exit status after the polling loop ends, refuting the claim
that a non-zero exit status always raises. -/
theorem C1_counterexample :
    run_command_readable ["exit 1"] ["compile error\n"] 1 =
      .ok ["compile error"] := by decide

/-- Claim C1, amended: `run_command_readable` streams output until the
child terminates and then returns normally whatever the exit status is —
the result does not depend on the exit status at all; it raises only when
the command is empty. -/
theorem C1_streaming_ignores_exit_status (command reads : List String)
    (code code' : Int) (h : command ≠ []) :
    (∃ lines, run_command_readable command reads code = .ok lines) ∧
    run_command_readable command reads code =
      run_command_readable command reads code' := by
  obtain ⟨c, cs, rfl⟩ := List.exists_cons_of_ne_nil h
  exact ⟨⟨_, rfl⟩, rfl⟩

/-- Witness for the amended claim C1 at a concrete non-zero exit status. -/
theorem C1_witness :
    (∃ lines, run_command_readable ["make"] ["out\n"] 1 = .ok lines) ∧
    run_command_readable ["make"] ["out\n"] 1 =
      run_command_readable ["make"] ["out\n"] 0 :=
  C1_streaming_ignores_exit_status ["make"] ["out\n"] 1 0 (by decide)

/-- Claim C2 counterexample: the line `"A=b c"` contains an `'='`, and its
key part (the characters before the first `'='`) holds no space — the only
space sits after the delimiter — yet `convert_env_to_dict` drops the line
(the source skips any line containing a space anywhere, via
`line.find(" ") < 0`), refuting the claim that only lines with a space
before the delimiter are dropped. -/
theorem C2_counterexample :
    splitFirstEq "A=b c".data = some ("A".data, "b c".data) ∧
    ' ' ∉ "A".data ∧
    convert_env_to_dict ["A=b c"] = [] := by decide

/-- Claim C2, amended: a line is dropped exactly when it contains a space
anywhere in the line (not merely before the delimiter) or contains no
`'='`; every space-free line containing an `'='` contributes the pair
obtained by splitting at the first `'='`. -/
theorem C2_env_parsing (line : String) :
    (parseEnvLine line = none ↔
      (' ' ∈ line.data ∨ '=' ∉ line.data)) ∧
    (∀ k v, ' ' ∉ line.data →
      splitFirstEq line.data = some (k, v) →
      convert_env_to_dict [line] = [(⟨k⟩, ⟨v⟩)]) := by
  constructor
  · by_cases hs : ' ' ∈ line.data
    · simp [parseEnvLine, hs]
    · cases h : splitFirstEq line.data with
      | none =>
        have := (splitFirstEq_eq_none_iff line.data).mp h
        simp [parseEnvLine, hs, h, this]
      | some kv =>
        have hne : '=' ∈ line.data := by
          by_contra hnot
          rw [← splitFirstEq_eq_none_iff line.data] at hnot
          rw [h] at hnot
          exact Option.some_ne_none kv hnot
        simp [parseEnvLine, hs, h, hne]
  · intro k v hs hsplit
    simp [convert_env_to_dict, parseEnvLine, hs, hsplit, dictInsert]

/-- Witness for the amended claim C2: a space-free `KEY=VALUE` line
contributes its pair. -/
theorem C2_witness :
    convert_env_to_dict ["PATH=/usr/bin"] = [("PATH", "/usr/bin")] :=
  (C2_env_parsing "PATH=/usr/bin").2 "PATH".data "/usr/bin".data
    (by decide) (by decide)

/-- Claim C10: both `run_command` and `run_command_readable` raise
`"No command provided."` when given an empty command sequence, spawning no
process and returning no value. -/
theorem C10_empty_command (loc : Option String) (co silent : Bool)
    (res : CmdResult) (reads : List String) (code : Int) :
    run_command [] loc co silent res = ([], .error .noCommandProvided) ∧
    run_command_readable [] reads code = .error .noCommandProvided :=
  ⟨rfl, rfl⟩

/-- Claim C3: for a non-empty command in buffered mode, a non-zero exit
status makes `run_command` raise `CommandFailed` (it never returns
normally), with the captured stderr reported to the console even when the
silent flag is set; on exit status zero with `collect_out` set, the
captured stdout is returned. -/
theorem C3_run_command_fail_fast (command : List String)
    (loc : Option String) (co silent : Bool) (res : CmdResult)
    (h : command ≠ []) :
    (res.code ≠ 0 →
      (run_command command loc co silent res).2 =
        .error (.commandFailed command) ∧
      LogEvent.errorOut res.err ∈ (run_command command loc co silent res).1) ∧
    (res.code = 0 → co = true →
      (run_command command loc co silent res).2 = .ok (some res.out)) := by
  obtain ⟨c, cs, rfl⟩ := List.exists_cons_of_ne_nil h
  constructor
  · intro hcode
    simp [run_command, hcode]
  · intro hcode hco
    simp [run_command, hcode, hco]

/-- Witness for claim C3: a failing command under the silent flag raises
and still reports the captured stderr; a succeeding command with
`collect_out` returns its stdout. -/
theorem C3_witness :
    ((run_command ["false"] none true true ⟨1, "o", "e"⟩).2 =
        .error (.commandFailed ["false"]) ∧
      LogEvent.errorOut "e" ∈ (run_command ["false"] none true true ⟨1, "o", "e"⟩).1) ∧
    (run_command ["ls"] none true false ⟨0, "o", "e"⟩).2 = .ok (some "o") :=
  ⟨(C3_run_command_fail_fast ["false"] none true true ⟨1, "o", "e"⟩
      (by decide)).1 (by decide),
   (C3_run_command_fail_fast ["ls"] none true false ⟨0, "o", "e"⟩
      (by decide)).2 rfl rfl⟩

/-- Claim C4: the Branch Mapper is deterministic — two invocations of
`create_branch_map` with identical input file collections (in a fixed
order) and identical selected scope sets produce identical
branch-index-to-metadata mappings. -/
theorem C4_branch_map_deterministic (wlcgPath nick era sampletype : String)
    (scopes scopes' : List String) (files files' : List String)
    (hs : scopes = scopes') (hf : files = files') :
    create_branch_map wlcgPath nick era sampletype scopes files =
      create_branch_map wlcgPath nick era sampletype scopes' files' := by
  rw [hs, hf]

/-- Witness for claim C4 at a concrete input collection. -/
theorem C4_witness :
    create_branch_map "root://x/" "nick" "era" "st" ["scope_a"]
        ["/d/scope_a/f0.root"] =
      create_branch_map "root://x/" "nick" "era" "st" ["scope_a"]
        ["/d/scope_a/f0.root"] :=
  C4_branch_map_deterministic "root://x/" "nick" "era" "st"
    ["scope_a"] ["scope_a"] ["/d/scope_a/f0.root"] ["/d/scope_a/f0.root"]
    rfl rfl

/-- Claim C5: every branch produced by `create_branch_map` carries
`filecounter = branch_index / number_of_selected_scopes` (so branches
derived from the same source position share one counter), and the concrete
4-file, 2-scope alternating collection yields branches `0..3` with file
counters `0, 0, 1, 1`. -/
theorem C5_filecounter (wlcgPath nick era sampletype : String)
    (scopes : List String) (files : List String) :
    (∀ p ∈ create_branch_map wlcgPath nick era sampletype scopes files,
      p.2.filecounter = p.1 / scopes.length) ∧
    create_branch_map "root://x/" "nick" "era" "st" ["scope_a", "scope_b"]
        ["/d/scope_a/f0.root", "/d/scope_b/f1.root",
         "/d/scope_a/f2.root", "/d/scope_b/f3.root"] =
      [(0, ⟨"scope_a", "nick", "era", "st", "root://x//d/scope_a/f0.root", 0⟩),
       (1, ⟨"scope_b", "nick", "era", "st", "root://x//d/scope_b/f1.root", 0⟩),
       (2, ⟨"scope_a", "nick", "era", "st", "root://x//d/scope_a/f2.root", 1⟩),
       (3, ⟨"scope_b", "nick", "era", "st", "root://x//d/scope_b/f3.root", 1⟩)] :=
  ⟨fun p hp => branchMapAux_filecounter wlcgPath nick era sampletype scopes
      files 0 p hp,
   by decide⟩

/-- Witness for claim C5: branch `3` of the alternating scenario carries
file counter `3 / 2 = 1`. -/
theorem C5_witness :
    ((3 : ℕ),
      (⟨"scope_b", "nick", "era", "st", "root://x//d/scope_b/f3.root", 1⟩ :
        BranchData)).2.filecounter =
      3 / (["scope_a", "scope_b"] : List String).length :=
  (C5_filecounter "root://x/" "nick" "era" "st" ["scope_a", "scope_b"]
      ["/d/scope_a/f0.root", "/d/scope_b/f1.root",
       "/d/scope_a/f2.root", "/d/scope_b/f3.root"]).1 _ (by decide)

/-- Claim C6: the job descriptor omits the `request_gpus` field exactly
when the requested GPU count is zero — a request of `"0"` yields custom
content with no `request_gpus` entry, a request of `"1"` yields one with
that value. -/
theorem C6_gpu_request (p : HTCondorParams) :
    (p.htcondor_request_gpus = "0" →
      (htcondor_custom_content p).all
        (fun kv => kv.1 != "request_gpus") = true) ∧
    (p.htcondor_request_gpus = "1" →
      ("request_gpus", "1") ∈ htcondor_custom_content p) := by
  constructor
  · intro h
    have h0 : pyFloat p.htcondor_request_gpus = 0 := by rw [h]; decide
    simp only [htcondor_custom_content, h0]
    split <;> simp
  · intro h
    have h1 : (0 : ℕ) < pyFloat "1" := by decide
    simp only [htcondor_custom_content, h, if_pos h1]
    split <;> simp

/-- Witness for claim C6 at concrete parameter records differing only in
the GPU request. -/
theorem C6_witness :
    (htcondor_custom_content
        ⟨"grp", "", "True", "docker", "img", "1h", "proxy", "4", "0", "2000", "100"⟩).all
      (fun kv => kv.1 != "request_gpus") = true ∧
    ("request_gpus", "1") ∈ htcondor_custom_content
        ⟨"grp", "", "True", "docker", "img", "1h", "proxy", "4", "1", "2000", "100"⟩ :=
  ⟨(C6_gpu_request
      ⟨"grp", "", "True", "docker", "img", "1h", "proxy", "4", "0", "2000", "100"⟩).1 rfl,
   (C6_gpu_request
      ⟨"grp", "", "True", "docker", "img", "1h", "proxy", "4", "1", "2000", "100"⟩).2 rfl⟩

/-- Claim C7: when the stored manifest's path set differs from the wrapped
task's current output path set, `PuppetMaster.output` deletes the manifest
and reports the stored-only paths together with the current-only paths
(the symmetric difference); if the manifest survives the deletion attempt
it raises instead of continuing; when the two sets are equal the manifest
is left unchanged. -/
theorem C7_manifest_drift (stored current : List String) (rm : Bool) :
    (current.toFinset ≠ stored.toFinset →
      puppet_output (some stored) current true =
        .ok (none, some (stored.toFinset \ current.toFinset,
                         current.toFinset \ stored.toFinset)) ∧
      puppet_output (some stored) current false = .error .deletionFailed) ∧
    (current.toFinset = stored.toFinset →
      puppet_output (some stored) current rm = .ok (some stored, none)) := by
  constructor
  · intro h
    exact ⟨by simp [puppet_output, h], by simp [puppet_output, h]⟩
  · intro h
    simp [puppet_output, h]

/-- Witness for claim C7: a drifted manifest is deleted with its symmetric
difference reported, survives as an error when deletion fails, and an
equal set (in another order) leaves the manifest alone. -/
theorem C7_witness :
    (puppet_output (some ["a", "b"]) ["b", "c"] true =
        .ok (none, some ((["a", "b"] : List String).toFinset \
                           (["b", "c"] : List String).toFinset,
                         (["b", "c"] : List String).toFinset \
                           (["a", "b"] : List String).toFinset)) ∧
      puppet_output (some ["a", "b"]) ["b", "c"] false =
        .error .deletionFailed) ∧
    puppet_output (some ["a", "b"]) ["b", "a"] true =
      .ok (some ["a", "b"], none) :=
  ⟨(C7_manifest_drift ["a", "b"] ["b", "c"] true).1 (by decide),
   (C7_manifest_drift ["a", "b"] ["b", "a"] true).2 (by decide)⟩

/-- Claim C8 (round trip): a manifest written by the run step from the
wrapped task's flattened output path list, checked against unchanged
declared outputs, matches — no mismatch is reported and the manifest is
not deleted. -/
theorem C8_round_trip (paths : List String) (rm : Bool) :
    puppet_output (puppet_run_manifest paths) paths rm =
      .ok (some paths, none) := by
  simp [puppet_output, puppet_run_manifest]

/-- Claim C9: when the tarball with the expected bundle name already
exists at the expected local install location, `CROWNBuild.run` performs
exactly the log-and-upload sequence — the existing local tarball is
uploaded directly and the compile script is never invoked; the build
toolchain is invoked exactly when that local file is absent. -/
theorem C9_build_skip (p : BuildParams) :
    crownbuild_run p true =
      [.logExistingTarball
          (p.install_dir ++ "/" ++
            (p.production_tag ++ "/CROWN_" ++ p.analysis ++ "_" ++ p.config)),
       .uploadTarball
          (p.install_dir ++ "/" ++
            (p.production_tag ++ "/CROWN_" ++ p.analysis ++ "_" ++ p.config) ++
            "/" ++ crown_tarball_name p) 10] ∧
    (crownbuild_run p true).any isCompileCall = false ∧
    (crownbuild_run p false).any isCompileCall = true := by
  refine ⟨rfl, ?_, ?_⟩ <;> simp [crownbuild_run, isCompileCall]

end KingMaker
